import Mathlib

/-!
Verification of the allocator-interposition shim `mimalloc-glue.c`.

The shim resolves, once per process load, which implementation each
malloc-family symbol should reach (third-party interposer, the mimalloc
library, or fall-through), stores the decision in a lookup table `lut`,
and exposes forwarding wrappers that call through the table.

Modelling conventions:
* a machine address (`void*`) is a `Nat`; the null pointer is `0`;
* the dynamic loader is a `Loader` record: two booleans saying whether
  `dlopen("libc.so.6", RTLD_NOW | RTLD_NOLOAD)` and
  `dlopen("libmimalloc.so", RTLD_NOW)` succeed, and three symbol maps
  giving what `dlsym` yields in libc, in libmimalloc, and for
  `RTLD_NEXT` (`0` when `dlsym` fails);
* `fprintf(stderr, ...); abort()` is modelled as a `fatal` outcome
  carrying the diagnostic text; `abort` terminates the process with a
  non-zero exit status;
* a wrapper's observable behaviour is either `abort msg` or
  `forward addr args`: the indirect call through `addr` with the
  caller's argument list, whose result is returned unchanged.
-/

/-- The dynamic-loader environment consumed by the shim. -/
structure Loader where
  /-- `dlopen("libc.so.6", RTLD_NOW | RTLD_NOLOAD)` returns a handle. -/
  libcLoaded : Bool
  /-- `dlopen("libmimalloc.so", RTLD_NOW)` returns a handle. -/
  mimallocLoadable : Bool
  /-- `dlsym(libc_so, s)`; `0` when the symbol is absent from libc. -/
  libcSym : String → Nat
  /-- `dlsym(libmimalloc_so, s)`; `0` when absent from libmimalloc. -/
  mimallocSym : String → Nat
  /-- `dlsym(RTLD_NEXT, s)`; `0` when no next occurrence exists. -/
  nextSym : String → Nat

/-- Lookup table for resolved symbols (struct `malloc_lut`), one
address per wrapped symbol; `0` models an unresolved (NULL) entry. -/
structure malloc_lut where
  malloc : Nat
  calloc : Nat
  realloc : Nat
  free : Nat
  strdup : Nat
  strndup : Nat
  realpath : Nat
  reallocf : Nat
  malloc_size : Nat
  malloc_usable_size : Nat
  malloc_good_size : Nat
  cfree : Nat
  valloc : Nat
  pvalloc : Nat
  reallocarray : Nat
  reallocarr : Nat
  memalign : Nat
  aligned_alloc : Nat
  posix_memalign : Nat
  uscore_posix_memalign : Nat
deriving DecidableEq, Repr

/-- The static initialiser of the global `lut`: all twenty entries NULL. -/
def lut0 : malloc_lut :=
  ⟨0, 0, 0, 0, 0, 0, 0, 0, 0, 0, 0, 0, 0, 0, 0, 0, 0, 0, 0, 0⟩

/-- The enumerated set of wrapped symbols (the fields of `malloc_lut`);
`uscore_posix_memalign` stands for the C identifier `_posix_memalign`. -/
inductive Symb where
  | malloc | calloc | realloc | free | strdup | strndup | realpath
  | reallocf | malloc_size | malloc_usable_size | malloc_good_size
  | cfree | valloc | pvalloc | reallocarray | reallocarr
  | memalign | aligned_alloc | posix_memalign | uscore_posix_memalign
deriving DecidableEq, Repr

/-- The C name of each wrapped symbol. -/
def symName : Symb → String
  | .malloc => "malloc"
  | .calloc => "calloc"
  | .realloc => "realloc"
  | .free => "free"
  | .strdup => "strdup"
  | .strndup => "strndup"
  | .realpath => "realpath"
  | .reallocf => "reallocf"
  | .malloc_size => "malloc_size"
  | .malloc_usable_size => "malloc_usable_size"
  | .malloc_good_size => "malloc_good_size"
  | .cfree => "cfree"
  | .valloc => "valloc"
  | .pvalloc => "pvalloc"
  | .reallocarray => "reallocarray"
  | .reallocarr => "reallocarr"
  | .memalign => "memalign"
  | .aligned_alloc => "aligned_alloc"
  | .posix_memalign => "posix_memalign"
  | .uscore_posix_memalign => "_posix_memalign"

/-- Read the table entry for a symbol. -/
def lutGet : Symb → malloc_lut → Nat
  | .malloc, l => l.malloc
  | .calloc, l => l.calloc
  | .realloc, l => l.realloc
  | .free, l => l.free
  | .strdup, l => l.strdup
  | .strndup, l => l.strndup
  | .realpath, l => l.realpath
  | .reallocf, l => l.reallocf
  | .malloc_size, l => l.malloc_size
  | .malloc_usable_size, l => l.malloc_usable_size
  | .malloc_good_size, l => l.malloc_good_size
  | .cfree, l => l.cfree
  | .valloc, l => l.valloc
  | .pvalloc, l => l.pvalloc
  | .reallocarray, l => l.reallocarray
  | .reallocarr, l => l.reallocarr
  | .memalign, l => l.memalign
  | .aligned_alloc, l => l.aligned_alloc
  | .posix_memalign, l => l.posix_memalign
  | .uscore_posix_memalign, l => l.uscore_posix_memalign

/-- All twenty wrapped symbols, in table order. -/
def Symb.all : List Symb :=
  [.malloc, .calloc, .realloc, .free, .strdup, .strndup, .realpath,
   .reallocf, .malloc_size, .malloc_usable_size, .malloc_good_size,
   .cfree, .valloc, .pvalloc, .reallocarray, .reallocarr,
   .memalign, .aligned_alloc, .posix_memalign, .uscore_posix_memalign]

/-- Outcome of `resolve_func`: either the process aborts with a
diagnostic, or an address (possibly NULL) is returned. -/
inductive ResolveResult where
  | fatal (msg : String)
  | ok (addr : Nat)
deriving DecidableEq, Repr

/-- `resolve_func` from `mimalloc-glue.c`: check libc is loaded, load
libmimalloc, look the symbol up in libc, in libmimalloc and via
`RTLD_NEXT`, then pick mimalloc's address when next is libc's or
mimalloc's, and the next address otherwise. -/
def resolve_func (env : Loader) (symbol : String) : ResolveResult :=
  -- no libc -> bad
  if env.libcLoaded = false then .fatal "libc.so.6 not loaded\n" else
  -- no mimalloc -> bad
  if env.mimallocLoadable = false then .fatal "Failed to load libmimalloc.so\n" else
  -- address of the symbol in libc
  let libc_sym := env.libcSym symbol
  -- address of the symbol in mimalloc
  let libmimalloc_sym := env.mimallocSym symbol
  -- address of the next (in search order) symbol
  let next_sym := env.nextSym symbol
  -- if next is either libc default or mimalloc select it
  if next_sym = libc_sym ∨ next_sym = libmimalloc_sym then .ok libmimalloc_sym
  -- if not that means another library already claimed the symbol
  else .ok next_sym

/-- `check_defined` from `mimalloc-glue.c`: `some msg` models the
`fprintf` + `abort` path taken when the entry is NULL. -/
def check_defined (symbol : Nat) (name : String) : Option String :=
  if symbol = 0 then some (name ++ "() is not defined\n") else none

/-- The spec-side decision rule of §4.1 step 4, a pure function of the
three looked-up addresses. -/
def select_addr (libc_sym libmimalloc_sym next_sym : Nat) : Nat :=
  if next_sym = libc_sym ∨ next_sym = libmimalloc_sym then libmimalloc_sym
  else next_sym

/-- Drop the diagnostic: `some` address on success, `none` when
`resolve_func` aborts the process. -/
def ResolveResult.toOption : ResolveResult → Option Nat
  | .fatal _ => none
  | .ok a => some a

/-- The address a non-aborting `resolve_func` run returns for `symbol`
(`0` stands in on the fatal paths; used only by the event trace of a
run that completes). -/
def resolve_addr (env : Loader) (symbol : String) : Nat :=
  match resolve_func env symbol with
  | .ok a => a
  | .fatal _ => 0

/-- The table state after the first phase of `init` (lines 137-156):
every entry temporarily set to its `dlsym(RTLD_NEXT, ...)` address so
that allocation during resolution is serviced. -/
def tempLut (env : Loader) : malloc_lut :=
  ⟨env.nextSym "malloc", env.nextSym "calloc", env.nextSym "realloc",
   env.nextSym "free", env.nextSym "strdup", env.nextSym "strndup",
   env.nextSym "realpath", env.nextSym "reallocf", env.nextSym "malloc_size",
   env.nextSym "malloc_usable_size", env.nextSym "malloc_good_size",
   env.nextSym "cfree", env.nextSym "valloc", env.nextSym "pvalloc",
   env.nextSym "reallocarray", env.nextSym "reallocarr", env.nextSym "memalign",
   env.nextSym "aligned_alloc", env.nextSym "posix_memalign",
   env.nextSym "_posix_memalign"⟩

/-- Sequencing of one resolution step in `init`: continue with the
resolved address, or propagate the abort of the whole run. -/
def rbind (x : ResolveResult) (f : Nat → Option malloc_lut) : Option malloc_lut :=
  match x with
  | .fatal _ => none
  | .ok a => f a

/-- End-to-end effect of `init` on the table: resolve all twenty
symbols (`none` if any `resolve_func` call aborts the process), then
bulk-update every entry with its resolved value.  The temporary
defaults of lines 137-156 are overwritten field-for-field by the bulk
update of lines 181-200, so they do not appear in the result; the
phase ordering itself is modelled by `initEvents`. -/
def run_init (env : Loader) : Option malloc_lut :=
  rbind (resolve_func env "malloc") fun malloc =>
  rbind (resolve_func env "calloc") fun calloc =>
  rbind (resolve_func env "realloc") fun realloc =>
  rbind (resolve_func env "free") fun free =>
  rbind (resolve_func env "strdup") fun strdup =>
  rbind (resolve_func env "strndup") fun strndup =>
  rbind (resolve_func env "realpath") fun realpath =>
  rbind (resolve_func env "reallocf") fun reallocf =>
  rbind (resolve_func env "malloc_size") fun malloc_size =>
  rbind (resolve_func env "malloc_usable_size") fun malloc_usable_size =>
  rbind (resolve_func env "malloc_good_size") fun malloc_good_size =>
  rbind (resolve_func env "cfree") fun cfree =>
  rbind (resolve_func env "valloc") fun valloc =>
  rbind (resolve_func env "pvalloc") fun pvalloc =>
  rbind (resolve_func env "reallocarray") fun reallocarray =>
  rbind (resolve_func env "reallocarr") fun reallocarr =>
  rbind (resolve_func env "memalign") fun memalign =>
  rbind (resolve_func env "aligned_alloc") fun aligned_alloc =>
  rbind (resolve_func env "posix_memalign") fun posix_memalign =>
  rbind (resolve_func env "_posix_memalign") fun uscore_posix_memalign =>
  some ⟨malloc, calloc, realloc, free, strdup, strndup, realpath,
        reallocf, malloc_size, malloc_usable_size, malloc_good_size,
        cfree, valloc, pvalloc, reallocarray, reallocarr,
        memalign, aligned_alloc, posix_memalign, uscore_posix_memalign⟩

/-- The final table of a completed `init` run, entry by entry the
decision rule applied to the three looked-up addresses. -/
def finalLut (env : Loader) : malloc_lut :=
  ⟨select_addr (env.libcSym "malloc") (env.mimallocSym "malloc") (env.nextSym "malloc"),
   select_addr (env.libcSym "calloc") (env.mimallocSym "calloc") (env.nextSym "calloc"),
   select_addr (env.libcSym "realloc") (env.mimallocSym "realloc") (env.nextSym "realloc"),
   select_addr (env.libcSym "free") (env.mimallocSym "free") (env.nextSym "free"),
   select_addr (env.libcSym "strdup") (env.mimallocSym "strdup") (env.nextSym "strdup"),
   select_addr (env.libcSym "strndup") (env.mimallocSym "strndup") (env.nextSym "strndup"),
   select_addr (env.libcSym "realpath") (env.mimallocSym "realpath") (env.nextSym "realpath"),
   select_addr (env.libcSym "reallocf") (env.mimallocSym "reallocf") (env.nextSym "reallocf"),
   select_addr (env.libcSym "malloc_size") (env.mimallocSym "malloc_size") (env.nextSym "malloc_size"),
   select_addr (env.libcSym "malloc_usable_size") (env.mimallocSym "malloc_usable_size") (env.nextSym "malloc_usable_size"),
   select_addr (env.libcSym "malloc_good_size") (env.mimallocSym "malloc_good_size") (env.nextSym "malloc_good_size"),
   select_addr (env.libcSym "cfree") (env.mimallocSym "cfree") (env.nextSym "cfree"),
   select_addr (env.libcSym "valloc") (env.mimallocSym "valloc") (env.nextSym "valloc"),
   select_addr (env.libcSym "pvalloc") (env.mimallocSym "pvalloc") (env.nextSym "pvalloc"),
   select_addr (env.libcSym "reallocarray") (env.mimallocSym "reallocarray") (env.nextSym "reallocarray"),
   select_addr (env.libcSym "reallocarr") (env.mimallocSym "reallocarr") (env.nextSym "reallocarr"),
   select_addr (env.libcSym "memalign") (env.mimallocSym "memalign") (env.nextSym "memalign"),
   select_addr (env.libcSym "aligned_alloc") (env.mimallocSym "aligned_alloc") (env.nextSym "aligned_alloc"),
   select_addr (env.libcSym "posix_memalign") (env.mimallocSym "posix_memalign") (env.nextSym "posix_memalign"),
   select_addr (env.libcSym "_posix_memalign") (env.mimallocSym "_posix_memalign") (env.nextSym "_posix_memalign")⟩

/-- One primitive action of `init` on the table: a write of an address
into the entry for a symbol, or a call to `resolve_func` for a symbol. -/
inductive InitEvent where
  | assign (s : Symb) (a : Nat)
  | resolveCall (s : Symb)
deriving DecidableEq, Repr

/-- The sequence of table writes and `resolve_func` calls performed by
`init` (lines 137-200), in program order, for a run in which no
`resolve_func` call aborts: first the twenty temporary-default writes
of the `dlsym(RTLD_NEXT, ...)` addresses, then the twenty
`resolve_func` calls, then the twenty bulk-update writes of the
resolved addresses. -/
def initEvents (env : Loader) : List InitEvent :=
  [ .assign .malloc (env.nextSym "malloc"),
    .assign .calloc (env.nextSym "calloc"),
    .assign .realloc (env.nextSym "realloc"),
    .assign .free (env.nextSym "free"),
    .assign .strdup (env.nextSym "strdup"),
    .assign .strndup (env.nextSym "strndup"),
    .assign .realpath (env.nextSym "realpath"),
    .assign .reallocf (env.nextSym "reallocf"),
    .assign .malloc_size (env.nextSym "malloc_size"),
    .assign .malloc_usable_size (env.nextSym "malloc_usable_size"),
    .assign .malloc_good_size (env.nextSym "malloc_good_size"),
    .assign .cfree (env.nextSym "cfree"),
    .assign .valloc (env.nextSym "valloc"),
    .assign .pvalloc (env.nextSym "pvalloc"),
    .assign .reallocarray (env.nextSym "reallocarray"),
    .assign .reallocarr (env.nextSym "reallocarr"),
    .assign .memalign (env.nextSym "memalign"),
    .assign .aligned_alloc (env.nextSym "aligned_alloc"),
    .assign .posix_memalign (env.nextSym "posix_memalign"),
    .assign .uscore_posix_memalign (env.nextSym "_posix_memalign"),
    .resolveCall .malloc,
    .resolveCall .calloc,
    .resolveCall .realloc,
    .resolveCall .free,
    .resolveCall .strdup,
    .resolveCall .strndup,
    .resolveCall .realpath,
    .resolveCall .reallocf,
    .resolveCall .malloc_size,
    .resolveCall .malloc_usable_size,
    .resolveCall .malloc_good_size,
    .resolveCall .cfree,
    .resolveCall .valloc,
    .resolveCall .pvalloc,
    .resolveCall .reallocarray,
    .resolveCall .reallocarr,
    .resolveCall .memalign,
    .resolveCall .aligned_alloc,
    .resolveCall .posix_memalign,
    .resolveCall .uscore_posix_memalign,
    .assign .malloc (resolve_addr env "malloc"),
    .assign .calloc (resolve_addr env "calloc"),
    .assign .realloc (resolve_addr env "realloc"),
    .assign .free (resolve_addr env "free"),
    .assign .strdup (resolve_addr env "strdup"),
    .assign .strndup (resolve_addr env "strndup"),
    .assign .realpath (resolve_addr env "realpath"),
    .assign .reallocf (resolve_addr env "reallocf"),
    .assign .malloc_size (resolve_addr env "malloc_size"),
    .assign .malloc_usable_size (resolve_addr env "malloc_usable_size"),
    .assign .malloc_good_size (resolve_addr env "malloc_good_size"),
    .assign .cfree (resolve_addr env "cfree"),
    .assign .valloc (resolve_addr env "valloc"),
    .assign .pvalloc (resolve_addr env "pvalloc"),
    .assign .reallocarray (resolve_addr env "reallocarray"),
    .assign .reallocarr (resolve_addr env "reallocarr"),
    .assign .memalign (resolve_addr env "memalign"),
    .assign .aligned_alloc (resolve_addr env "aligned_alloc"),
    .assign .posix_memalign (resolve_addr env "posix_memalign"),
    .assign .uscore_posix_memalign (resolve_addr env "_posix_memalign") ]

/-- Whether an init event is a call to `resolve_func`. -/
def InitEvent.isResolveCall : InitEvent → Bool
  | .assign _ _ => false
  | .resolveCall _ => true

/-- The observable behaviour of one wrapper invocation: either the
process aborts with a diagnostic (the `check_defined` path), or the
wrapper performs the indirect call through `addr` with the caller's
arguments, returning that call's result unchanged. -/
inductive WrapBehavior where
  | abort (msg : String)
  | forward (addr : Nat) (args : List Nat)
deriving DecidableEq, Repr

/-- Result a wrapper invocation hands back to its caller, given the
semantics `call` of performing an indirect call: `none` when the
process aborts instead of returning. -/
def interp (call : Nat → List Nat → Nat) : WrapBehavior → Option Nat
  | .abort _ => none
  | .forward a args => some (call a args)

/-- `true` exactly on the aborting behaviour. -/
def wrapAborts : WrapBehavior → Bool
  | .abort _ => true
  | .forward _ _ => false

/-- Wrapper `malloc(size)` (lines 206-209). -/
def glue.malloc (l : malloc_lut) (size : Nat) : malloc_lut × WrapBehavior :=
  match check_defined l.malloc "malloc" with
  | some msg => (l, .abort msg)
  | none => (l, .forward l.malloc [size])

/-- Wrapper `calloc(n, size)` (lines 212-215). -/
def glue.calloc (l : malloc_lut) (n size : Nat) : malloc_lut × WrapBehavior :=
  match check_defined l.calloc "calloc" with
  | some msg => (l, .abort msg)
  | none => (l, .forward l.calloc [n, size])

/-- Wrapper `realloc(ptr, size)` (lines 218-221). -/
def glue.realloc (l : malloc_lut) (ptr size : Nat) : malloc_lut × WrapBehavior :=
  match check_defined l.realloc "realloc" with
  | some msg => (l, .abort msg)
  | none => (l, .forward l.realloc [ptr, size])

/-- Wrapper `free(ptr)` (lines 224-227). -/
def glue.free (l : malloc_lut) (ptr : Nat) : malloc_lut × WrapBehavior :=
  match check_defined l.free "free" with
  | some msg => (l, .abort msg)
  | none => (l, .forward l.free [ptr])

/-- Wrapper `strdup(s)` (lines 230-233). -/
def glue.strdup (l : malloc_lut) (s : Nat) : malloc_lut × WrapBehavior :=
  match check_defined l.strdup "strdup" with
  | some msg => (l, .abort msg)
  | none => (l, .forward l.strdup [s])

/-- Wrapper `strndup(s, n)` (lines 236-239). -/
def glue.strndup (l : malloc_lut) (s n : Nat) : malloc_lut × WrapBehavior :=
  match check_defined l.strndup "strndup" with
  | some msg => (l, .abort msg)
  | none => (l, .forward l.strndup [s, n])

/-- Wrapper `realpath(path, resolved_path)` (lines 242-245). -/
def glue.realpath (l : malloc_lut) (path resolved_path : Nat) : malloc_lut × WrapBehavior :=
  match check_defined l.realpath "realpath" with
  | some msg => (l, .abort msg)
  | none => (l, .forward l.realpath [path, resolved_path])

/-- Wrapper `reallocf(ptr, size)` (lines 248-251). -/
def glue.reallocf (l : malloc_lut) (ptr size : Nat) : malloc_lut × WrapBehavior :=
  match check_defined l.reallocf "reallocf" with
  | some msg => (l, .abort msg)
  | none => (l, .forward l.reallocf [ptr, size])

/-- Wrapper `malloc_size(ptr)` (lines 254-257). -/
def glue.malloc_size (l : malloc_lut) (ptr : Nat) : malloc_lut × WrapBehavior :=
  match check_defined l.malloc_size "malloc_size" with
  | some msg => (l, .abort msg)
  | none => (l, .forward l.malloc_size [ptr])

/-- Wrapper `malloc_usable_size(ptr)` (lines 260-263). -/
def glue.malloc_usable_size (l : malloc_lut) (ptr : Nat) : malloc_lut × WrapBehavior :=
  match check_defined l.malloc_usable_size "malloc_usable_size" with
  | some msg => (l, .abort msg)
  | none => (l, .forward l.malloc_usable_size [ptr])

/-- Wrapper `malloc_good_size(size)` (lines 266-269). -/
def glue.malloc_good_size (l : malloc_lut) (size : Nat) : malloc_lut × WrapBehavior :=
  match check_defined l.malloc_good_size "malloc_good_size" with
  | some msg => (l, .abort msg)
  | none => (l, .forward l.malloc_good_size [size])

/-- Wrapper `cfree(ptr)` (lines 272-275). -/
def glue.cfree (l : malloc_lut) (ptr : Nat) : malloc_lut × WrapBehavior :=
  match check_defined l.cfree "cfree" with
  | some msg => (l, .abort msg)
  | none => (l, .forward l.cfree [ptr])

/-- Wrapper `valloc(size)` (lines 278-281). -/
def glue.valloc (l : malloc_lut) (size : Nat) : malloc_lut × WrapBehavior :=
  match check_defined l.valloc "valloc" with
  | some msg => (l, .abort msg)
  | none => (l, .forward l.valloc [size])

/-- Wrapper `pvalloc(size)` (lines 284-287). -/
def glue.pvalloc (l : malloc_lut) (size : Nat) : malloc_lut × WrapBehavior :=
  match check_defined l.pvalloc "pvalloc" with
  | some msg => (l, .abort msg)
  | none => (l, .forward l.pvalloc [size])

/-- Wrapper `reallocarray(ptr, n, size)` (lines 290-293). -/
def glue.reallocarray (l : malloc_lut) (ptr n size : Nat) : malloc_lut × WrapBehavior :=
  match check_defined l.reallocarray "reallocarray" with
  | some msg => (l, .abort msg)
  | none => (l, .forward l.reallocarray [ptr, n, size])

/-- Wrapper `reallocarr(ptr, n, size)` (lines 296-299). -/
def glue.reallocarr (l : malloc_lut) (ptr n size : Nat) : malloc_lut × WrapBehavior :=
  match check_defined l.reallocarr "reallocarr" with
  | some msg => (l, .abort msg)
  | none => (l, .forward l.reallocarr [ptr, n, size])

/-- Wrapper `memalign(alignment, size)` (lines 302-305). -/
def glue.memalign (l : malloc_lut) (alignment size : Nat) : malloc_lut × WrapBehavior :=
  match check_defined l.memalign "memalign" with
  | some msg => (l, .abort msg)
  | none => (l, .forward l.memalign [alignment, size])

/-- Wrapper `aligned_alloc(alignment, size)` (lines 308-311). -/
def glue.aligned_alloc (l : malloc_lut) (alignment size : Nat) : malloc_lut × WrapBehavior :=
  match check_defined l.aligned_alloc "aligned_alloc" with
  | some msg => (l, .abort msg)
  | none => (l, .forward l.aligned_alloc [alignment, size])

/-- Wrapper `posix_memalign(memptr, alignment, size)` (lines 314-317). -/
def glue.posix_memalign (l : malloc_lut) (memptr alignment size : Nat) : malloc_lut × WrapBehavior :=
  match check_defined l.posix_memalign "posix_memalign" with
  | some msg => (l, .abort msg)
  | none => (l, .forward l.posix_memalign [memptr, alignment, size])

/-- Wrapper `_posix_memalign(memptr, alignment, size)` (lines 320-323). -/
def glue.uscore_posix_memalign (l : malloc_lut) (memptr alignment size : Nat) : malloc_lut × WrapBehavior :=
  match check_defined l.uscore_posix_memalign "_posix_memalign" with
  | some msg => (l, .abort msg)
  | none => (l, .forward l.uscore_posix_memalign [memptr, alignment, size])

/-- Whether the wrapper for `s`, invoked on table `l` with (up to
three) arguments `a b c`, aborts the process.  Dispatches to the
actual wrapper of each symbol. -/
def wrapAbortsAt (s : Symb) (l : malloc_lut) (a b c : Nat) : Bool :=
  match s with
  | .malloc => wrapAborts (glue.malloc l a).2
  | .calloc => wrapAborts (glue.calloc l a b).2
  | .realloc => wrapAborts (glue.realloc l a b).2
  | .free => wrapAborts (glue.free l a).2
  | .strdup => wrapAborts (glue.strdup l a).2
  | .strndup => wrapAborts (glue.strndup l a b).2
  | .realpath => wrapAborts (glue.realpath l a b).2
  | .reallocf => wrapAborts (glue.reallocf l a b).2
  | .malloc_size => wrapAborts (glue.malloc_size l a).2
  | .malloc_usable_size => wrapAborts (glue.malloc_usable_size l a).2
  | .malloc_good_size => wrapAborts (glue.malloc_good_size l a).2
  | .cfree => wrapAborts (glue.cfree l a).2
  | .valloc => wrapAborts (glue.valloc l a).2
  | .pvalloc => wrapAborts (glue.pvalloc l a).2
  | .reallocarray => wrapAborts (glue.reallocarray l a b c).2
  | .reallocarr => wrapAborts (glue.reallocarr l a b c).2
  | .memalign => wrapAborts (glue.memalign l a b).2
  | .aligned_alloc => wrapAborts (glue.aligned_alloc l a b).2
  | .posix_memalign => wrapAborts (glue.posix_memalign l a b c).2
  | .uscore_posix_memalign => wrapAborts (glue.uscore_posix_memalign l a b c).2

/-- Concrete loader for witnesses: both libraries load, every symbol is
at address 1 in libc, address 2 in libmimalloc, and `RTLD_NEXT` sees
the libc copy (no third-party interposer). -/
def envPlain : Loader := ⟨true, true, fun _ => 1, fun _ => 2, fun _ => 1⟩

/-- Concrete loader for witnesses: as `envPlain` except that the symbol
`cfree` is absent from every lookup. -/
def envNoCfree : Loader :=
  ⟨true, true,
   fun s => if s = "cfree" then 0 else 1,
   fun s => if s = "cfree" then 0 else 2,
   fun s => if s = "cfree" then 0 else 1⟩

/-- Concrete loader for witnesses: as `envPlain` except that the symbol
`cfree` is absent from libmimalloc only; libc provides it at address 1
and `RTLD_NEXT` sees that libc copy. -/
def envLibcOnlyCfree : Loader :=
  ⟨true, true, fun _ => 1, fun s => if s = "cfree" then 0 else 2, fun _ => 1⟩

/-- Concrete loader for witnesses: libc is reported as not loaded. -/
def envNoLibc : Loader := ⟨false, true, fun _ => 1, fun _ => 2, fun _ => 1⟩

/-- Concrete loader for witnesses: libmimalloc fails to load. -/
def envNoMimalloc : Loader := ⟨true, false, fun _ => 1, fun _ => 2, fun _ => 1⟩

/-- Concrete table for witnesses: every entry resolved to address 1. -/
def lutOnes : malloc_lut :=
  ⟨1, 1, 1, 1, 1, 1, 1, 1, 1, 1, 1, 1, 1, 1, 1, 1, 1, 1, 1, 1⟩

/-- Concrete indirect-call semantics for witnesses. -/
def callW : Nat → List Nat → Nat := fun a args => a + args.length

/-- When both libraries are available, `resolve_func` never aborts and
returns exactly the decision rule applied to the three addresses. -/
theorem resolve_func_ok (env : Loader) (s : String)
    (hc : env.libcLoaded = true) (hm : env.mimallocLoadable = true) :
    resolve_func env s =
      .ok (select_addr (env.libcSym s) (env.mimallocSym s) (env.nextSym s)) := by
  by_cases h : env.nextSym s = env.libcSym s ∨ env.nextSym s = env.mimallocSym s <;>
    simp [resolve_func, select_addr, hc, hm, h]

/-- When libc is reported unloaded, `resolve_func` aborts with the libc
diagnostic, for every symbol. -/
theorem resolve_func_fatal_libc (env : Loader) (s : String)
    (hc : env.libcLoaded = false) :
    resolve_func env s = .fatal "libc.so.6 not loaded\n" := by
  unfold resolve_func
  simp [hc]

/-- When libc is loaded but libmimalloc fails to load, `resolve_func`
aborts with the libmimalloc diagnostic, for every symbol. -/
theorem resolve_func_fatal_mimalloc (env : Loader) (s : String)
    (hc : env.libcLoaded = true) (hm : env.mimallocLoadable = false) :
    resolve_func env s = .fatal "Failed to load libmimalloc.so\n" := by
  unfold resolve_func
  simp [hc, hm]

/-- When both libraries are available, `init` completes and installs
`finalLut`. -/
theorem run_init_ok (env : Loader)
    (hc : env.libcLoaded = true) (hm : env.mimallocLoadable = true) :
    run_init env = some (finalLut env) := by
  unfold run_init finalLut
  simp only [resolve_func_ok env _ hc hm, rbind]

/-- The table entry of each symbol in `finalLut` is the decision rule
applied to that symbol's three addresses. -/
theorem finalLut_get (env : Loader) (s : Symb) :
    lutGet s (finalLut env) =
      select_addr (env.libcSym (symName s)) (env.mimallocSym (symName s))
        (env.nextSym (symName s)) := by
  cases s <;> rfl

/-- A wrapper invocation aborts exactly when its table entry is NULL,
whatever the arguments. -/
theorem wrapAbortsAt_eq (s : Symb) (l : malloc_lut) (a b c : Nat) :
    wrapAbortsAt s l a b c = decide (lutGet s l = 0) := by
  cases s <;>
    simp only [wrapAbortsAt, glue.malloc, glue.calloc, glue.realloc, glue.free,
      glue.strdup, glue.strndup, glue.realpath, glue.reallocf, glue.malloc_size,
      glue.malloc_usable_size, glue.malloc_good_size, glue.cfree, glue.valloc,
      glue.pvalloc, glue.reallocarray, glue.reallocarr, glue.memalign,
      glue.aligned_alloc, glue.posix_memalign, glue.uscore_posix_memalign,
      check_defined] <;>
    split <;> simp_all [wrapAborts, lutGet]

/-- C1: for every symbol name, `resolve_func` implements the three-way
decision rule: if the `RTLD_NEXT` address equals either libc's own
address for the symbol or libmimalloc's address for it, it returns
libmimalloc's address; otherwise it returns the `RTLD_NEXT` address
unchanged.  The result is `select_addr`, a deterministic function of
the three looked-up addresses. -/
theorem C1_resolve_decision_rule (env : Loader) (s : String)
    (hc : env.libcLoaded = true) (hm : env.mimallocLoadable = true) :
    ((env.nextSym s = env.libcSym s ∨ env.nextSym s = env.mimallocSym s) →
      resolve_func env s = .ok (env.mimallocSym s)) ∧
    ((env.nextSym s ≠ env.libcSym s ∧ env.nextSym s ≠ env.mimallocSym s) →
      resolve_func env s = .ok (env.nextSym s)) ∧
    resolve_func env s =
      .ok (select_addr (env.libcSym s) (env.mimallocSym s) (env.nextSym s)) := by
  refine ⟨?_, ?_, resolve_func_ok env s hc hm⟩
  · intro h
    simp [resolve_func_ok env s hc hm, select_addr, h]
  · intro h
    simp [resolve_func_ok env s hc hm, select_addr, h.1, h.2]

/-- Witness for C1: with no interposer (`RTLD_NEXT` sees the libc
copy), resolution picks libmimalloc's address. -/
theorem C1_resolve_decision_rule_witness :
    resolve_func envPlain "malloc" = .ok (envPlain.mimallocSym "malloc") :=
  (C1_resolve_decision_rule envPlain "malloc" rfl rfl).1 (Or.inl rfl)

/-- C7: if the loader reports libc.so.6 as not loaded, `resolve_func`
aborts with a diagnostic naming it (hence `init` aborts), and the
outcome is the same for arbitrary symbol tables, i.e. no allocation
symbol resolution is attempted or consulted. -/
theorem C7_fatal_when_libc_missing (env : Loader) (s : String)
    (hc : env.libcLoaded = false) :
    resolve_func env s = .fatal "libc.so.6 not loaded\n" ∧
    run_init env = none ∧
    (∀ f g n : String → Nat,
      resolve_func ⟨false, env.mimallocLoadable, f, g, n⟩ s =
        .fatal "libc.so.6 not loaded\n") := by
  refine ⟨resolve_func_fatal_libc env s hc, ?_,
    fun f g n => resolve_func_fatal_libc _ s rfl⟩
  unfold run_init
  simp only [resolve_func_fatal_libc env _ hc, rbind]

/-- Witness for C7 at a loader that reports libc as unloaded. -/
theorem C7_fatal_when_libc_missing_witness :
    resolve_func envNoLibc "malloc" = .fatal "libc.so.6 not loaded\n" ∧
    run_init envNoLibc = none :=
  ⟨(C7_fatal_when_libc_missing envNoLibc "malloc" rfl).1,
   (C7_fatal_when_libc_missing envNoLibc "malloc" rfl).2.1⟩

/-- C8: if libmimalloc.so fails to load, `resolve_func` aborts with a
diagnostic naming it, and `init` therefore aborts at initialisation. -/
theorem C8_fatal_when_mimalloc_missing (env : Loader) (s : String)
    (hc : env.libcLoaded = true) (hm : env.mimallocLoadable = false) :
    resolve_func env s = .fatal "Failed to load libmimalloc.so\n" ∧
    run_init env = none := by
  refine ⟨resolve_func_fatal_mimalloc env s hc hm, ?_⟩
  unfold run_init
  simp only [resolve_func_fatal_mimalloc env _ hc hm, rbind]

/-- Witness for C8 at a loader where libmimalloc fails to load. -/
theorem C8_fatal_when_mimalloc_missing_witness :
    resolve_func envNoMimalloc "malloc" = .fatal "Failed to load libmimalloc.so\n" ∧
    run_init envNoMimalloc = none :=
  ⟨(C8_fatal_when_mimalloc_missing envNoMimalloc "malloc" rfl rfl).1,
   (C8_fatal_when_mimalloc_missing envNoMimalloc "malloc" rfl rfl).2⟩

/-- C9: every address `resolve_func` returns, and every entry of the
table `init` installs, is either libmimalloc's address for the symbol
or the `RTLD_NEXT` address; libc's own address is never a distinct
third outcome. -/
theorem C9_only_two_provenances (env : Loader)
    (hc : env.libcLoaded = true) (hm : env.mimallocLoadable = true) :
    (∀ (s : String) (a : Nat), resolve_func env s = .ok a →
      a = env.mimallocSym s ∨ a = env.nextSym s) ∧
    run_init env = some (finalLut env) ∧
    (∀ s : Symb, lutGet s (finalLut env) = env.mimallocSym (symName s) ∨
      lutGet s (finalLut env) = env.nextSym (symName s)) := by
  refine ⟨?_, run_init_ok env hc hm, ?_⟩
  · intro s a h
    rw [resolve_func_ok env s hc hm] at h
    injection h with h2
    subst h2
    by_cases hcase : env.nextSym s = env.libcSym s ∨ env.nextSym s = env.mimallocSym s
    · exact Or.inl (by simp [select_addr, hcase])
    · exact Or.inr (by simp [select_addr, hcase])
  · intro s
    rw [finalLut_get]
    by_cases hcase : env.nextSym (symName s) = env.libcSym (symName s) ∨
        env.nextSym (symName s) = env.mimallocSym (symName s)
    · exact Or.inl (by simp [select_addr, hcase])
    · exact Or.inr (by simp [select_addr, hcase])

/-- Witness for C9: at the concrete loader, the address resolved for
`malloc` is one of the two permitted provenances. -/
theorem C9_only_two_provenances_witness :
    (2 : Nat) = envPlain.mimallocSym "malloc" ∨ (2 : Nat) = envPlain.nextSym "malloc" :=
  (C9_only_two_provenances envPlain rfl rfl).1 "malloc" 2 (by decide)

/-- C2: every one of the twenty forwarding wrappers, invoked while its
table entry is NULL, aborts with a diagnostic naming that symbol and
performs no indirect call (the behaviour is `abort`, never `forward`). -/
theorem C2_null_entry_aborts (l : malloc_lut) :
    (l.malloc = 0 → ∀ a : Nat,
      glue.malloc l a = (l, .abort "malloc() is not defined\n")) ∧
    (l.calloc = 0 → ∀ a b : Nat,
      glue.calloc l a b = (l, .abort "calloc() is not defined\n")) ∧
    (l.realloc = 0 → ∀ a b : Nat,
      glue.realloc l a b = (l, .abort "realloc() is not defined\n")) ∧
    (l.free = 0 → ∀ a : Nat,
      glue.free l a = (l, .abort "free() is not defined\n")) ∧
    (l.strdup = 0 → ∀ a : Nat,
      glue.strdup l a = (l, .abort "strdup() is not defined\n")) ∧
    (l.strndup = 0 → ∀ a b : Nat,
      glue.strndup l a b = (l, .abort "strndup() is not defined\n")) ∧
    (l.realpath = 0 → ∀ a b : Nat,
      glue.realpath l a b = (l, .abort "realpath() is not defined\n")) ∧
    (l.reallocf = 0 → ∀ a b : Nat,
      glue.reallocf l a b = (l, .abort "reallocf() is not defined\n")) ∧
    (l.malloc_size = 0 → ∀ a : Nat,
      glue.malloc_size l a = (l, .abort "malloc_size() is not defined\n")) ∧
    (l.malloc_usable_size = 0 → ∀ a : Nat,
      glue.malloc_usable_size l a = (l, .abort "malloc_usable_size() is not defined\n")) ∧
    (l.malloc_good_size = 0 → ∀ a : Nat,
      glue.malloc_good_size l a = (l, .abort "malloc_good_size() is not defined\n")) ∧
    (l.cfree = 0 → ∀ a : Nat,
      glue.cfree l a = (l, .abort "cfree() is not defined\n")) ∧
    (l.valloc = 0 → ∀ a : Nat,
      glue.valloc l a = (l, .abort "valloc() is not defined\n")) ∧
    (l.pvalloc = 0 → ∀ a : Nat,
      glue.pvalloc l a = (l, .abort "pvalloc() is not defined\n")) ∧
    (l.reallocarray = 0 → ∀ a b c : Nat,
      glue.reallocarray l a b c = (l, .abort "reallocarray() is not defined\n")) ∧
    (l.reallocarr = 0 → ∀ a b c : Nat,
      glue.reallocarr l a b c = (l, .abort "reallocarr() is not defined\n")) ∧
    (l.memalign = 0 → ∀ a b : Nat,
      glue.memalign l a b = (l, .abort "memalign() is not defined\n")) ∧
    (l.aligned_alloc = 0 → ∀ a b : Nat,
      glue.aligned_alloc l a b = (l, .abort "aligned_alloc() is not defined\n")) ∧
    (l.posix_memalign = 0 → ∀ a b c : Nat,
      glue.posix_memalign l a b c = (l, .abort "posix_memalign() is not defined\n")) ∧
    (l.uscore_posix_memalign = 0 → ∀ a b c : Nat,
      glue.uscore_posix_memalign l a b c = (l, .abort "_posix_memalign() is not defined\n")) := by
  refine ⟨?_, ?_, ?_, ?_, ?_, ?_, ?_, ?_, ?_, ?_, ?_, ?_, ?_, ?_, ?_, ?_, ?_, ?_, ?_, ?_⟩ <;>
    (intro h
     intros
     simp [glue.malloc, glue.calloc, glue.realloc, glue.free, glue.strdup, glue.strndup, glue.realpath, glue.reallocf, glue.malloc_size, glue.malloc_usable_size, glue.malloc_good_size, glue.cfree, glue.valloc, glue.pvalloc, glue.reallocarray, glue.reallocarr, glue.memalign, glue.aligned_alloc, glue.posix_memalign, glue.uscore_posix_memalign, check_defined, h])

/-- Witness for C2 at the all-NULL table: each wrapper aborts with the
diagnostic naming its own symbol. -/
theorem C2_null_entry_aborts_witness :
    glue.malloc lut0 7 = (lut0, .abort "malloc() is not defined\n") ∧
    glue.calloc lut0 7 7 = (lut0, .abort "calloc() is not defined\n") ∧
    glue.realloc lut0 7 7 = (lut0, .abort "realloc() is not defined\n") ∧
    glue.free lut0 7 = (lut0, .abort "free() is not defined\n") ∧
    glue.strdup lut0 7 = (lut0, .abort "strdup() is not defined\n") ∧
    glue.strndup lut0 7 7 = (lut0, .abort "strndup() is not defined\n") ∧
    glue.realpath lut0 7 7 = (lut0, .abort "realpath() is not defined\n") ∧
    glue.reallocf lut0 7 7 = (lut0, .abort "reallocf() is not defined\n") ∧
    glue.malloc_size lut0 7 = (lut0, .abort "malloc_size() is not defined\n") ∧
    glue.malloc_usable_size lut0 7 = (lut0, .abort "malloc_usable_size() is not defined\n") ∧
    glue.malloc_good_size lut0 7 = (lut0, .abort "malloc_good_size() is not defined\n") ∧
    glue.cfree lut0 7 = (lut0, .abort "cfree() is not defined\n") ∧
    glue.valloc lut0 7 = (lut0, .abort "valloc() is not defined\n") ∧
    glue.pvalloc lut0 7 = (lut0, .abort "pvalloc() is not defined\n") ∧
    glue.reallocarray lut0 7 7 7 = (lut0, .abort "reallocarray() is not defined\n") ∧
    glue.reallocarr lut0 7 7 7 = (lut0, .abort "reallocarr() is not defined\n") ∧
    glue.memalign lut0 7 7 = (lut0, .abort "memalign() is not defined\n") ∧
    glue.aligned_alloc lut0 7 7 = (lut0, .abort "aligned_alloc() is not defined\n") ∧
    glue.posix_memalign lut0 7 7 7 = (lut0, .abort "posix_memalign() is not defined\n") ∧
    glue.uscore_posix_memalign lut0 7 7 7 = (lut0, .abort "_posix_memalign() is not defined\n") :=
  ⟨   (C2_null_entry_aborts lut0).1 rfl 7,
   (C2_null_entry_aborts lut0).2.1 rfl 7 7,
   (C2_null_entry_aborts lut0).2.2.1 rfl 7 7,
   (C2_null_entry_aborts lut0).2.2.2.1 rfl 7,
   (C2_null_entry_aborts lut0).2.2.2.2.1 rfl 7,
   (C2_null_entry_aborts lut0).2.2.2.2.2.1 rfl 7 7,
   (C2_null_entry_aborts lut0).2.2.2.2.2.2.1 rfl 7 7,
   (C2_null_entry_aborts lut0).2.2.2.2.2.2.2.1 rfl 7 7,
   (C2_null_entry_aborts lut0).2.2.2.2.2.2.2.2.1 rfl 7,
   (C2_null_entry_aborts lut0).2.2.2.2.2.2.2.2.2.1 rfl 7,
   (C2_null_entry_aborts lut0).2.2.2.2.2.2.2.2.2.2.1 rfl 7,
   (C2_null_entry_aborts lut0).2.2.2.2.2.2.2.2.2.2.2.1 rfl 7,
   (C2_null_entry_aborts lut0).2.2.2.2.2.2.2.2.2.2.2.2.1 rfl 7,
   (C2_null_entry_aborts lut0).2.2.2.2.2.2.2.2.2.2.2.2.2.1 rfl 7,
   (C2_null_entry_aborts lut0).2.2.2.2.2.2.2.2.2.2.2.2.2.2.1 rfl 7 7 7,
   (C2_null_entry_aborts lut0).2.2.2.2.2.2.2.2.2.2.2.2.2.2.2.1 rfl 7 7 7,
   (C2_null_entry_aborts lut0).2.2.2.2.2.2.2.2.2.2.2.2.2.2.2.2.1 rfl 7 7,
   (C2_null_entry_aborts lut0).2.2.2.2.2.2.2.2.2.2.2.2.2.2.2.2.2.1 rfl 7 7,
   (C2_null_entry_aborts lut0).2.2.2.2.2.2.2.2.2.2.2.2.2.2.2.2.2.2.1 rfl 7 7 7,
   (C2_null_entry_aborts lut0).2.2.2.2.2.2.2.2.2.2.2.2.2.2.2.2.2.2.2 rfl 7 7 7⟩

/-- C3: every forwarding wrapper whose table entry is non-NULL forwards
to exactly the resolved address with exactly the caller's arguments,
and hands back exactly the result of that indirect call, for every
call semantics. -/
theorem C3_transparent_forwarding (l : malloc_lut) :
    (l.malloc ≠ 0 → ∀ (call : Nat → List Nat → Nat) (a : Nat),
      (glue.malloc l a).2 = .forward l.malloc [a] ∧
      interp call (glue.malloc l a).2 = some (call l.malloc [a])) ∧
    (l.calloc ≠ 0 → ∀ (call : Nat → List Nat → Nat) (a b : Nat),
      (glue.calloc l a b).2 = .forward l.calloc [a, b] ∧
      interp call (glue.calloc l a b).2 = some (call l.calloc [a, b])) ∧
    (l.realloc ≠ 0 → ∀ (call : Nat → List Nat → Nat) (a b : Nat),
      (glue.realloc l a b).2 = .forward l.realloc [a, b] ∧
      interp call (glue.realloc l a b).2 = some (call l.realloc [a, b])) ∧
    (l.free ≠ 0 → ∀ (call : Nat → List Nat → Nat) (a : Nat),
      (glue.free l a).2 = .forward l.free [a] ∧
      interp call (glue.free l a).2 = some (call l.free [a])) ∧
    (l.strdup ≠ 0 → ∀ (call : Nat → List Nat → Nat) (a : Nat),
      (glue.strdup l a).2 = .forward l.strdup [a] ∧
      interp call (glue.strdup l a).2 = some (call l.strdup [a])) ∧
    (l.strndup ≠ 0 → ∀ (call : Nat → List Nat → Nat) (a b : Nat),
      (glue.strndup l a b).2 = .forward l.strndup [a, b] ∧
      interp call (glue.strndup l a b).2 = some (call l.strndup [a, b])) ∧
    (l.realpath ≠ 0 → ∀ (call : Nat → List Nat → Nat) (a b : Nat),
      (glue.realpath l a b).2 = .forward l.realpath [a, b] ∧
      interp call (glue.realpath l a b).2 = some (call l.realpath [a, b])) ∧
    (l.reallocf ≠ 0 → ∀ (call : Nat → List Nat → Nat) (a b : Nat),
      (glue.reallocf l a b).2 = .forward l.reallocf [a, b] ∧
      interp call (glue.reallocf l a b).2 = some (call l.reallocf [a, b])) ∧
    (l.malloc_size ≠ 0 → ∀ (call : Nat → List Nat → Nat) (a : Nat),
      (glue.malloc_size l a).2 = .forward l.malloc_size [a] ∧
      interp call (glue.malloc_size l a).2 = some (call l.malloc_size [a])) ∧
    (l.malloc_usable_size ≠ 0 → ∀ (call : Nat → List Nat → Nat) (a : Nat),
      (glue.malloc_usable_size l a).2 = .forward l.malloc_usable_size [a] ∧
      interp call (glue.malloc_usable_size l a).2 = some (call l.malloc_usable_size [a])) ∧
    (l.malloc_good_size ≠ 0 → ∀ (call : Nat → List Nat → Nat) (a : Nat),
      (glue.malloc_good_size l a).2 = .forward l.malloc_good_size [a] ∧
      interp call (glue.malloc_good_size l a).2 = some (call l.malloc_good_size [a])) ∧
    (l.cfree ≠ 0 → ∀ (call : Nat → List Nat → Nat) (a : Nat),
      (glue.cfree l a).2 = .forward l.cfree [a] ∧
      interp call (glue.cfree l a).2 = some (call l.cfree [a])) ∧
    (l.valloc ≠ 0 → ∀ (call : Nat → List Nat → Nat) (a : Nat),
      (glue.valloc l a).2 = .forward l.valloc [a] ∧
      interp call (glue.valloc l a).2 = some (call l.valloc [a])) ∧
    (l.pvalloc ≠ 0 → ∀ (call : Nat → List Nat → Nat) (a : Nat),
      (glue.pvalloc l a).2 = .forward l.pvalloc [a] ∧
      interp call (glue.pvalloc l a).2 = some (call l.pvalloc [a])) ∧
    (l.reallocarray ≠ 0 → ∀ (call : Nat → List Nat → Nat) (a b c : Nat),
      (glue.reallocarray l a b c).2 = .forward l.reallocarray [a, b, c] ∧
      interp call (glue.reallocarray l a b c).2 = some (call l.reallocarray [a, b, c])) ∧
    (l.reallocarr ≠ 0 → ∀ (call : Nat → List Nat → Nat) (a b c : Nat),
      (glue.reallocarr l a b c).2 = .forward l.reallocarr [a, b, c] ∧
      interp call (glue.reallocarr l a b c).2 = some (call l.reallocarr [a, b, c])) ∧
    (l.memalign ≠ 0 → ∀ (call : Nat → List Nat → Nat) (a b : Nat),
      (glue.memalign l a b).2 = .forward l.memalign [a, b] ∧
      interp call (glue.memalign l a b).2 = some (call l.memalign [a, b])) ∧
    (l.aligned_alloc ≠ 0 → ∀ (call : Nat → List Nat → Nat) (a b : Nat),
      (glue.aligned_alloc l a b).2 = .forward l.aligned_alloc [a, b] ∧
      interp call (glue.aligned_alloc l a b).2 = some (call l.aligned_alloc [a, b])) ∧
    (l.posix_memalign ≠ 0 → ∀ (call : Nat → List Nat → Nat) (a b c : Nat),
      (glue.posix_memalign l a b c).2 = .forward l.posix_memalign [a, b, c] ∧
      interp call (glue.posix_memalign l a b c).2 = some (call l.posix_memalign [a, b, c])) ∧
    (l.uscore_posix_memalign ≠ 0 → ∀ (call : Nat → List Nat → Nat) (a b c : Nat),
      (glue.uscore_posix_memalign l a b c).2 = .forward l.uscore_posix_memalign [a, b, c] ∧
      interp call (glue.uscore_posix_memalign l a b c).2 = some (call l.uscore_posix_memalign [a, b, c])) := by
  refine ⟨?_, ?_, ?_, ?_, ?_, ?_, ?_, ?_, ?_, ?_, ?_, ?_, ?_, ?_, ?_, ?_, ?_, ?_, ?_, ?_⟩ <;>
    (intro h
     intros
     simp [glue.malloc, glue.calloc, glue.realloc, glue.free, glue.strdup, glue.strndup, glue.realpath, glue.reallocf, glue.malloc_size, glue.malloc_usable_size, glue.malloc_good_size, glue.cfree, glue.valloc, glue.pvalloc, glue.reallocarray, glue.reallocarr, glue.memalign, glue.aligned_alloc, glue.posix_memalign, glue.uscore_posix_memalign, check_defined, interp, h])

/-- Witness for C3 at the all-resolved table and a concrete call
semantics. -/
theorem C3_transparent_forwarding_witness :
    ((glue.malloc lutOnes 7).2 = .forward lutOnes.malloc [7] ∧
      interp callW (glue.malloc lutOnes 7).2 = some (callW lutOnes.malloc [7])) ∧
    ((glue.calloc lutOnes 7 7).2 = .forward lutOnes.calloc [7, 7] ∧
      interp callW (glue.calloc lutOnes 7 7).2 = some (callW lutOnes.calloc [7, 7])) ∧
    ((glue.realloc lutOnes 7 7).2 = .forward lutOnes.realloc [7, 7] ∧
      interp callW (glue.realloc lutOnes 7 7).2 = some (callW lutOnes.realloc [7, 7])) ∧
    ((glue.free lutOnes 7).2 = .forward lutOnes.free [7] ∧
      interp callW (glue.free lutOnes 7).2 = some (callW lutOnes.free [7])) ∧
    ((glue.strdup lutOnes 7).2 = .forward lutOnes.strdup [7] ∧
      interp callW (glue.strdup lutOnes 7).2 = some (callW lutOnes.strdup [7])) ∧
    ((glue.strndup lutOnes 7 7).2 = .forward lutOnes.strndup [7, 7] ∧
      interp callW (glue.strndup lutOnes 7 7).2 = some (callW lutOnes.strndup [7, 7])) ∧
    ((glue.realpath lutOnes 7 7).2 = .forward lutOnes.realpath [7, 7] ∧
      interp callW (glue.realpath lutOnes 7 7).2 = some (callW lutOnes.realpath [7, 7])) ∧
    ((glue.reallocf lutOnes 7 7).2 = .forward lutOnes.reallocf [7, 7] ∧
      interp callW (glue.reallocf lutOnes 7 7).2 = some (callW lutOnes.reallocf [7, 7])) ∧
    ((glue.malloc_size lutOnes 7).2 = .forward lutOnes.malloc_size [7] ∧
      interp callW (glue.malloc_size lutOnes 7).2 = some (callW lutOnes.malloc_size [7])) ∧
    ((glue.malloc_usable_size lutOnes 7).2 = .forward lutOnes.malloc_usable_size [7] ∧
      interp callW (glue.malloc_usable_size lutOnes 7).2 = some (callW lutOnes.malloc_usable_size [7])) ∧
    ((glue.malloc_good_size lutOnes 7).2 = .forward lutOnes.malloc_good_size [7] ∧
      interp callW (glue.malloc_good_size lutOnes 7).2 = some (callW lutOnes.malloc_good_size [7])) ∧
    ((glue.cfree lutOnes 7).2 = .forward lutOnes.cfree [7] ∧
      interp callW (glue.cfree lutOnes 7).2 = some (callW lutOnes.cfree [7])) ∧
    ((glue.valloc lutOnes 7).2 = .forward lutOnes.valloc [7] ∧
      interp callW (glue.valloc lutOnes 7).2 = some (callW lutOnes.valloc [7])) ∧
    ((glue.pvalloc lutOnes 7).2 = .forward lutOnes.pvalloc [7] ∧
      interp callW (glue.pvalloc lutOnes 7).2 = some (callW lutOnes.pvalloc [7])) ∧
    ((glue.reallocarray lutOnes 7 7 7).2 = .forward lutOnes.reallocarray [7, 7, 7] ∧
      interp callW (glue.reallocarray lutOnes 7 7 7).2 = some (callW lutOnes.reallocarray [7, 7, 7])) ∧
    ((glue.reallocarr lutOnes 7 7 7).2 = .forward lutOnes.reallocarr [7, 7, 7] ∧
      interp callW (glue.reallocarr lutOnes 7 7 7).2 = some (callW lutOnes.reallocarr [7, 7, 7])) ∧
    ((glue.memalign lutOnes 7 7).2 = .forward lutOnes.memalign [7, 7] ∧
      interp callW (glue.memalign lutOnes 7 7).2 = some (callW lutOnes.memalign [7, 7])) ∧
    ((glue.aligned_alloc lutOnes 7 7).2 = .forward lutOnes.aligned_alloc [7, 7] ∧
      interp callW (glue.aligned_alloc lutOnes 7 7).2 = some (callW lutOnes.aligned_alloc [7, 7])) ∧
    ((glue.posix_memalign lutOnes 7 7 7).2 = .forward lutOnes.posix_memalign [7, 7, 7] ∧
      interp callW (glue.posix_memalign lutOnes 7 7 7).2 = some (callW lutOnes.posix_memalign [7, 7, 7])) ∧
    ((glue.uscore_posix_memalign lutOnes 7 7 7).2 = .forward lutOnes.uscore_posix_memalign [7, 7, 7] ∧
      interp callW (glue.uscore_posix_memalign lutOnes 7 7 7).2 = some (callW lutOnes.uscore_posix_memalign [7, 7, 7])) :=
  ⟨   (C3_transparent_forwarding lutOnes).1 (by decide) callW 7,
   (C3_transparent_forwarding lutOnes).2.1 (by decide) callW 7 7,
   (C3_transparent_forwarding lutOnes).2.2.1 (by decide) callW 7 7,
   (C3_transparent_forwarding lutOnes).2.2.2.1 (by decide) callW 7,
   (C3_transparent_forwarding lutOnes).2.2.2.2.1 (by decide) callW 7,
   (C3_transparent_forwarding lutOnes).2.2.2.2.2.1 (by decide) callW 7 7,
   (C3_transparent_forwarding lutOnes).2.2.2.2.2.2.1 (by decide) callW 7 7,
   (C3_transparent_forwarding lutOnes).2.2.2.2.2.2.2.1 (by decide) callW 7 7,
   (C3_transparent_forwarding lutOnes).2.2.2.2.2.2.2.2.1 (by decide) callW 7,
   (C3_transparent_forwarding lutOnes).2.2.2.2.2.2.2.2.2.1 (by decide) callW 7,
   (C3_transparent_forwarding lutOnes).2.2.2.2.2.2.2.2.2.2.1 (by decide) callW 7,
   (C3_transparent_forwarding lutOnes).2.2.2.2.2.2.2.2.2.2.2.1 (by decide) callW 7,
   (C3_transparent_forwarding lutOnes).2.2.2.2.2.2.2.2.2.2.2.2.1 (by decide) callW 7,
   (C3_transparent_forwarding lutOnes).2.2.2.2.2.2.2.2.2.2.2.2.2.1 (by decide) callW 7,
   (C3_transparent_forwarding lutOnes).2.2.2.2.2.2.2.2.2.2.2.2.2.2.1 (by decide) callW 7 7 7,
   (C3_transparent_forwarding lutOnes).2.2.2.2.2.2.2.2.2.2.2.2.2.2.2.1 (by decide) callW 7 7 7,
   (C3_transparent_forwarding lutOnes).2.2.2.2.2.2.2.2.2.2.2.2.2.2.2.2.1 (by decide) callW 7 7,
   (C3_transparent_forwarding lutOnes).2.2.2.2.2.2.2.2.2.2.2.2.2.2.2.2.2.1 (by decide) callW 7 7,
   (C3_transparent_forwarding lutOnes).2.2.2.2.2.2.2.2.2.2.2.2.2.2.2.2.2.2.1 (by decide) callW 7 7 7,
   (C3_transparent_forwarding lutOnes).2.2.2.2.2.2.2.2.2.2.2.2.2.2.2.2.2.2.2 (by decide) callW 7 7 7⟩

/-- C10: no forwarding wrapper ever modifies the table: the table
component of every wrapper's outcome is the table it was given,
whatever the entry values and arguments. -/
theorem C10_wrappers_never_write (l : malloc_lut) :
    (∀ a : Nat, (glue.malloc l a).1 = l) ∧
    (∀ a b : Nat, (glue.calloc l a b).1 = l) ∧
    (∀ a b : Nat, (glue.realloc l a b).1 = l) ∧
    (∀ a : Nat, (glue.free l a).1 = l) ∧
    (∀ a : Nat, (glue.strdup l a).1 = l) ∧
    (∀ a b : Nat, (glue.strndup l a b).1 = l) ∧
    (∀ a b : Nat, (glue.realpath l a b).1 = l) ∧
    (∀ a b : Nat, (glue.reallocf l a b).1 = l) ∧
    (∀ a : Nat, (glue.malloc_size l a).1 = l) ∧
    (∀ a : Nat, (glue.malloc_usable_size l a).1 = l) ∧
    (∀ a : Nat, (glue.malloc_good_size l a).1 = l) ∧
    (∀ a : Nat, (glue.cfree l a).1 = l) ∧
    (∀ a : Nat, (glue.valloc l a).1 = l) ∧
    (∀ a : Nat, (glue.pvalloc l a).1 = l) ∧
    (∀ a b c : Nat, (glue.reallocarray l a b c).1 = l) ∧
    (∀ a b c : Nat, (glue.reallocarr l a b c).1 = l) ∧
    (∀ a b : Nat, (glue.memalign l a b).1 = l) ∧
    (∀ a b : Nat, (glue.aligned_alloc l a b).1 = l) ∧
    (∀ a b c : Nat, (glue.posix_memalign l a b c).1 = l) ∧
    (∀ a b c : Nat, (glue.uscore_posix_memalign l a b c).1 = l) := by
  refine ⟨?_, ?_, ?_, ?_, ?_, ?_, ?_, ?_, ?_, ?_, ?_, ?_, ?_, ?_, ?_, ?_, ?_, ?_, ?_, ?_⟩ <;>
    (intros
     simp only [glue.malloc, glue.calloc, glue.realloc, glue.free, glue.strdup, glue.strndup, glue.realpath, glue.reallocf, glue.malloc_size, glue.malloc_usable_size, glue.malloc_good_size, glue.cfree, glue.valloc, glue.pvalloc, glue.reallocarray, glue.reallocarr, glue.memalign, glue.aligned_alloc, glue.posix_memalign, glue.uscore_posix_memalign]
     split <;> rfl)

/-- C4: the action sequence of `init` decomposes into three phases in
program order: first an `RTLD_NEXT` temporary-default write for every
one of the twenty entries (so all temporaries are installed before the
first `resolve_func` call), then the twenty `resolve_func` calls, and
only after all of them the twenty final-value writes; `Symb.all`
covers each of the twenty symbols exactly once. -/
theorem C4_two_phase_init (env : Loader)
    (hc : env.libcLoaded = true) (hm : env.mimallocLoadable = true) :
    initEvents env =
      Symb.all.map (fun s => InitEvent.assign s (env.nextSym (symName s))) ++
      Symb.all.map InitEvent.resolveCall ++
      Symb.all.map (fun s => InitEvent.assign s
        (select_addr (env.libcSym (symName s)) (env.mimallocSym (symName s))
          (env.nextSym (symName s)))) ∧
    (∀ s : Symb, s ∈ Symb.all) ∧ Symb.all.Nodup ∧ Symb.all.length = 20 ∧
    (∀ e ∈ (initEvents env).take 20, e.isResolveCall = false) := by
  have hra : ∀ s : String, resolve_addr env s =
      select_addr (env.libcSym s) (env.mimallocSym s) (env.nextSym s) := by
    intro s
    unfold resolve_addr
    rw [resolve_func_ok env s hc hm]
  refine ⟨?_, ?_, by decide, by decide, ?_⟩
  · simp [initEvents, Symb.all, symName, hra]
  · intro s
    cases s <;> simp [Symb.all]
  · intro e he
    simp only [initEvents, List.take] at he
    fin_cases he <;> rfl

/-- Witness for C4 at a concrete loader. -/
theorem C4_two_phase_init_witness :
    initEvents envPlain =
      Symb.all.map (fun s => InitEvent.assign s (envPlain.nextSym (symName s))) ++
      Symb.all.map InitEvent.resolveCall ++
      Symb.all.map (fun s => InitEvent.assign s
        (select_addr (envPlain.libcSym (symName s)) (envPlain.mimallocSym (symName s))
          (envPlain.nextSym (symName s)))) :=
  (C4_two_phase_init envPlain rfl rfl).1

/-- C5: when a symbol is absent from every lookup, `resolve_func`
yields NULL rather than aborting, `init` still completes and installs
the final table, the entry for that symbol is NULL, calling any other
wrapper whose entry resolved non-NULL never aborts, and the first call
to the absent symbol's own wrapper aborts. -/
theorem C5_lazy_fatality (env : Loader) (s : Symb)
    (hc : env.libcLoaded = true) (hm : env.mimallocLoadable = true)
    (h1 : env.libcSym (symName s) = 0) (h2 : env.mimallocSym (symName s) = 0)
    (h3 : env.nextSym (symName s) = 0) :
    resolve_func env (symName s) = .ok 0 ∧
    run_init env = some (finalLut env) ∧
    lutGet s (finalLut env) = 0 ∧
    (∀ (t : Symb) (a b c : Nat), lutGet t (finalLut env) ≠ 0 →
      wrapAbortsAt t (finalLut env) a b c = false) ∧
    (∀ a b c : Nat, wrapAbortsAt s (finalLut env) a b c = true) := by
  have hget : lutGet s (finalLut env) = 0 := by
    rw [finalLut_get, h1, h2, h3]
    simp [select_addr]
  refine ⟨?_, run_init_ok env hc hm, hget, ?_, ?_⟩
  · rw [resolve_func_ok env _ hc hm, h1, h2, h3]
    simp [select_addr]
  · intro t a b c ht
    rw [wrapAbortsAt_eq]
    simp [ht]
  · intro a b c
    rw [wrapAbortsAt_eq]
    simp [hget]

/-- Witness for C5: with `cfree` absent everywhere, init completes, the
`cfree` wrapper aborts, and the `malloc` wrapper (resolved non-NULL)
does not. -/
theorem C5_lazy_fatality_witness :
    run_init envNoCfree = some (finalLut envNoCfree) ∧
    wrapAbortsAt Symb.cfree (finalLut envNoCfree) 7 7 7 = true ∧
    wrapAbortsAt Symb.malloc (finalLut envNoCfree) 7 7 7 = false :=
  ⟨(C5_lazy_fatality envNoCfree .cfree rfl rfl (by decide) (by decide) (by decide)).2.1,
   (C5_lazy_fatality envNoCfree .cfree rfl rfl (by decide) (by decide) (by decide)).2.2.2.2 7 7 7,
   (C5_lazy_fatality envNoCfree .cfree rfl rfl (by decide) (by decide) (by decide)).2.2.2.1
      .malloc 7 7 7 (by decide)⟩

/-- C6: a symbol defined by libc at a non-NULL address but absent from
libmimalloc, with no interposer (`RTLD_NEXT` sees the libc copy),
resolves to NULL: init completes, the entry is NULL, and the first
call to that wrapper aborts even though libc's implementation exists. -/
theorem C6_libc_only_symbol_unusable (env : Loader) (s : Symb) (L : Nat)
    (hc : env.libcLoaded = true) (hm : env.mimallocLoadable = true)
    (hL : L ≠ 0) (h1 : env.libcSym (symName s) = L)
    (h2 : env.mimallocSym (symName s) = 0) (h3 : env.nextSym (symName s) = L) :
    resolve_func env (symName s) = .ok 0 ∧
    run_init env = some (finalLut env) ∧
    lutGet s (finalLut env) = 0 ∧
    (∀ a b c : Nat, wrapAbortsAt s (finalLut env) a b c = true) := by
  have hget : lutGet s (finalLut env) = 0 := by
    rw [finalLut_get, h1, h2, h3]
    simp [select_addr]
  refine ⟨?_, run_init_ok env hc hm, hget, ?_⟩
  · rw [resolve_func_ok env _ hc hm, h1, h2, h3]
    simp [select_addr]
  · intro a b c
    rw [wrapAbortsAt_eq]
    simp [hget]

/-- Witness for C6: `cfree` is at address 1 in libc, absent from
libmimalloc, unclaimed by any interposer; its entry resolves to NULL
and its wrapper aborts. -/
theorem C6_libc_only_symbol_unusable_witness :
    resolve_func envLibcOnlyCfree (symName Symb.cfree) = .ok 0 ∧
    lutGet Symb.cfree (finalLut envLibcOnlyCfree) = 0 ∧
    wrapAbortsAt Symb.cfree (finalLut envLibcOnlyCfree) 7 7 7 = true :=
  ⟨(C6_libc_only_symbol_unusable envLibcOnlyCfree .cfree 1 rfl rfl (by decide)
      rfl (by decide) rfl).1,
   (C6_libc_only_symbol_unusable envLibcOnlyCfree .cfree 1 rfl rfl (by decide)
      rfl (by decide) rfl).2.2.1,
   (C6_libc_only_symbol_unusable envLibcOnlyCfree .cfree 1 rfl rfl (by decide)
      rfl (by decide) rfl).2.2.2 7 7 7⟩
